import Mathlib

/-!
Verification development for the `products` backend service
(customers, mechanics, autoservices, vehicles, provided maintenance).

The Python service layer is embedded shallowly:

* the relational store is a `DB` record of lists of rows;
* every service operation becomes a pure function; operations that can
  raise domain exceptions return `Except Err _`, and operations that
  write to the store also return the (possibly updated) `DB`.  All
  validation in the source happens before the single write of each
  flow, so an operation that raises leaves the store unchanged, which
  the embedding makes explicit by returning the original `DB` next to
  the error;
* SQLAlchemy `@validates` field validators (which raise
  `ClientException` on bad input) become `String → Except Err String`;
* UUID-valued keys are modelled as `Nat` (only equality of keys is ever
  used by the code);
* Python `re.match` on the concrete patterns of the source is embedded
  character by character, including the CPython semantics of `$`
  (which also matches just before a single newline at the end of the
  string).  The `\d` and `\s` classes are modelled on their ASCII
  fragment;
* `REAL`-typed geo fields (`lon`/`lat`) and timestamp columns are not
  modelled (floating point / wall-clock time); no claim depends on
  them.
-/

namespace Products

/-- Domain errors, keyed by the exception class the Python code raises.
`clientError` stands for `litestar.exceptions.ClientException` raised by
the model-level field validators; `checkMechanicOrAutoservice` stands for
the database rejecting an insert that violates the
`check_mechanic_or_autoservice` CHECK constraint of the
`provided_maintenance` table. -/
inductive Err where
  | customerNotFound
  | customerBelongsToAnotherUser
  | mechanicNotFound
  | mechanicBelongsToAnotherUser
  | autoserviceNotFound
  | autoserviceUserNotFound
  | autoserviceUserDoesntHavePermissions
  | providedMaintenanceNotFound
  | providedMaintenanceTypeNotFound
  | providedMaintenanceCountryAssociationNotFound
  | providedMaintenanceCountryAssociationAlreadyExists
  | providedMaintenanceVehicleBrandAssociationAlreadyExists
  | countryNotFound
  | vehicleNotFound
  | vehicleBrandNotFound
  | vehicleModelNotFound
  | vehicleGenerationNotFound
  | vehicleModelDoesntMatchWithVehicleBrand
  | vehicleGenerationDoesntMatchWithVehicleModel
  | clientError
  | checkMechanicOrAutoservice
  deriving DecidableEq, Repr

/-- Errors that the API layer (`products/api/v1`) translates to
`PermissionDeniedException` (HTTP 403). -/
def Err.isPermissionError : Err → Bool
  | .customerBelongsToAnotherUser => true
  | .mechanicBelongsToAnotherUser => true
  | .autoserviceUserNotFound => true
  | .autoserviceUserDoesntHavePermissions => true
  | _ => false

/-- An `Except` result counts as accepted when it is `.ok`. -/
def accepts {α : Type} : Except Err α → Bool
  | .ok _ => true
  | .error _ => false

/-! ### Embedding of the regular expressions used by the field validators

The source validates with `re.match` on anchored patterns.  `re.match`
anchors at the start; a final `$` matches at the end of the string or
just before a newline that ends the string (CPython semantics). -/

/-- `Customer.validate_name` (`products/models/customer.py`): length
below 2 or above 150 raises `ClientException`. -/
def Customer.validate_name (name : String) : Except Err String :=
  if name.length < 2 then .error .clientError
  else if name.length > 150 then .error .clientError
  else .ok name

/-- `Mechanic.validate_name` (`products/models/mechanic.py`): same
bounds as the customer name validator. -/
def Mechanic.validate_name (name : String) : Except Err String :=
  if name.length < 2 then .error .clientError
  else if name.length > 150 then .error .clientError
  else .ok name

/-- `products/models/user.py`: the authenticated identity. -/
structure User where
  uid : Nat
  deriving DecidableEq, Repr

/-- `products/models/customer.py`: a vehicle-owner profile. -/
structure Customer where
  customer_id : Nat
  name : String
  city : Option String
  uid : Nat
  deriving DecidableEq, Repr

/-- `products/models/mechanic.py`: a mechanic profile. -/
structure Mechanic where
  mechanic_id : Nat
  name : String
  description : Option String
  city : String
  address : Option String
  private_ : Bool
  mobile : Bool
  uid : Nat
  deriving DecidableEq, Repr

/-- `AutoserviceUserPermissions` enum
(`products/models/autoservice.py`). -/
inductive Perm where
  | autoservice_manage
  | autoservice_manage_provided_maintenance
  deriving DecidableEq, Repr

/-- `list(AutoserviceUserPermissions)` in Python declaration order. -/
def allPermissions : List Perm :=
  [.autoservice_manage, .autoservice_manage_provided_maintenance]

/-- `AutoserviceUser` row: per-autoservice permissions of a user. -/
structure AutoserviceUser where
  uid : Nat
  autoservice_id : Nat
  permissions : List Perm
  deriving DecidableEq, Repr

/-- `Autoservice` row (`products/models/autoservice.py`). -/
structure Autoservice where
  autoservice_id : Nat
  name : String
  description : Option String
  itn : String
  psrn : String
  city : String
  address : String
  deriving DecidableEq, Repr

/-- `Country` row (`products/models/country.py`). -/
structure Country where
  country_id : Nat
  name : String
  deriving DecidableEq, Repr

/-- `VehicleBrand` row (`products/models/vehicle.py`). -/
structure VehicleBrand where
  vehicle_brand_id : Nat
  name : String
  popular : Bool
  country_id : Nat
  deriving DecidableEq, Repr

/-- `VehicleModel` row (`products/models/vehicle.py`). -/
structure VehicleModel where
  vehicle_model_id : Nat
  name : String
  vehicle_brand_id : Nat
  deriving DecidableEq, Repr

/-- `VehicleGeneration` row (`products/models/vehicle.py`). -/
structure VehicleGeneration where
  vehicle_generation_id : Nat
  name : String
  start_year_production : Nat
  end_year_production : Option Nat
  vehicle_model_id : Nat
  deriving DecidableEq, Repr

/-- `Vehicle` row (`products/models/vehicle.py`); `vin` and
`state_number` are stored already validated. -/
structure Vehicle where
  vehicle_id : Nat
  state_number : Option String
  vin : Option String
  vehicle_brand_id : Nat
  vehicle_model_id : Nat
  vehicle_generation_id : Nat
  customer_id : Nat
  deriving DecidableEq, Repr

/-- `ProvidedMaintenanceCategory` row
(`products/models/maintenance.py`). -/
structure ProvidedMaintenanceCategory where
  provided_maintenance_category_id : Nat
  name : String
  deriving DecidableEq, Repr

/-- `ProvidedMaintenanceType` row (`products/models/maintenance.py`). -/
structure ProvidedMaintenanceType where
  provided_maintenance_type_id : Nat
  name : String
  provided_maintenance_category_id : Nat
  deriving DecidableEq, Repr

/-- `ProvidedMaintenance` row (`products/models/maintenance.py`);
`price` (`Numeric(10, 2)`, an exact decimal) is modelled in minor
units. -/
structure ProvidedMaintenance where
  provided_maintenance_id : Nat
  price : Int
  description : Option String
  provided_maintenance_type_id : Nat
  mechanic_id : Option Nat
  autoservice_id : Option Nat
  deriving DecidableEq, Repr

/-- `provided_maintenance_country_association` row. -/
structure ProvidedMaintenanceCountryAssociation where
  provided_maintenance_id : Nat
  country_id : Nat
  deriving DecidableEq, Repr

/-- `provided_maintenance_vehicle_brand_association` row. -/
structure ProvidedMaintenanceVehicleBrandAssociation where
  provided_maintenance_id : Nat
  vehicle_brand_id : Nat
  deriving DecidableEq, Repr

/-- The relational store: one list of rows per table, in insertion
order (`get_one_or_none` on a filter becomes `List.find?`). -/
structure DB where
  customers : List Customer := []
  mechanics : List Mechanic := []
  autoservices : List Autoservice := []
  autoservice_users : List AutoserviceUser := []
  countries : List Country := []
  vehicle_brands : List VehicleBrand := []
  vehicle_models : List VehicleModel := []
  vehicle_generations : List VehicleGeneration := []
  vehicles : List Vehicle := []
  provided_maintenance_types : List ProvidedMaintenanceType := []
  provided_maintenance : List ProvidedMaintenance := []
  pm_country_assoc : List ProvidedMaintenanceCountryAssociation := []
  pm_vehicle_brand_assoc : List ProvidedMaintenanceVehicleBrandAssociation := []
  deriving DecidableEq, Repr

/-! ### Patch payloads

The PATCH endpoints accept DTOs whose include set restricts the mutable
fields (`CustomerPatchDTO`, `MechanicPatchDTO`, `AutoservicePatchDTO`);
the service then keeps only the non-`None` entries of the payload
(`update_data`), so a `none` field leaves the stored value alone. -/

/-- `CustomerPatchDTO`: `include={name, city}`, all optional. -/
structure CustomerPatch where
  name : Option String := none
  city : Option String := none
  deriving DecidableEq, Repr

/-- `MechanicPatchDTO` restricted to the modelled columns. -/
structure MechanicPatch where
  name : Option String := none
  description : Option String := none
  city : Option String := none
  address : Option String := none
  private_ : Option Bool := none
  mobile : Option Bool := none
  deriving DecidableEq, Repr

/-- `AutoservicePatchDTO`: `include={name, description}`. -/
structure AutoservicePatch where
  name : Option String := none
  description : Option String := none
  deriving DecidableEq, Repr

/-- Overwrite the fields present in `update_data`. -/
def applyCustomerPatch (c : Customer) (p : CustomerPatch) : Customer :=
  { c with
    name := p.name.getD c.name
    city := match p.city with | some v => some v | none => c.city }

/-- Overwrite the fields present in `update_data`. -/
def applyMechanicPatch (m : Mechanic) (p : MechanicPatch) : Mechanic :=
  { m with
    name := p.name.getD m.name
    description := match p.description with | some v => some v | none => m.description
    city := p.city.getD m.city
    address := match p.address with | some v => some v | none => m.address
    private_ := p.private_.getD m.private_
    mobile := p.mobile.getD m.mobile }

/-- Overwrite the fields present in `update_data`. -/
def applyAutoservicePatch (a : Autoservice) (p : AutoservicePatch) : Autoservice :=
  { a with
    name := p.name.getD a.name
    description := match p.description with | some v => some v | none => a.description }

/-! ### CustomerService (`products/services/customer.py`) -/

/-- `CustomerService.get_customer_by_customer_id`: raises
`CustomerNotFoundError` on a miss. -/
def get_customer_by_customer_id (db : DB) (customer_id : Nat) : Except Err Customer :=
  match db.customers.find? (fun c => c.customer_id == customer_id) with
  | some c => .ok c
  | none => .error .customerNotFound

/-- `CustomerService.create_customer`: an existing record with the
user's uid is returned as is; otherwise the record is stored with
`uid := user.uid`. -/
def create_customer (db : DB) (customer : Customer) (user : User) : Customer × DB :=
  match db.customers.find? (fun c => c.uid == user.uid) with
  | some saved => (saved, db)
  | none =>
      let c := { customer with uid := user.uid }
      (c, { db with customers := db.customers ++ [c] })

/-- `CustomerService.patch_customer`: fetch, check ownership, update. -/
def patch_customer (db : DB) (customer_id : Nat) (changed : CustomerPatch)
    (user : User) : Except Err Customer × DB :=
  match get_customer_by_customer_id db customer_id with
  | .error e => (.error e, db)
  | .ok customer =>
      if customer.uid ≠ user.uid then
        (.error .customerBelongsToAnotherUser, db)
      else
        let c := applyCustomerPatch customer changed
        (.ok c,
          { db with customers := db.customers.map fun x =>
              if x.customer_id == customer.customer_id then c else x })

/-! ### MechanicService (`products/services/mechanic.py`) -/

/-- `MechanicService.validate_mechanic_owner`: raises
`MechanicBelongsToAnotherUserError` on a uid mismatch. -/
def validate_mechanic_owner (mechanic : Mechanic) (user : User) : Except Err Unit :=
  if mechanic.uid ≠ user.uid then .error .mechanicBelongsToAnotherUser else .ok ()

/-- `MechanicService.get_mechanic_by_mechanic_id`: raises
`MechanicNotFoundError` on a miss. -/
def get_mechanic_by_mechanic_id (db : DB) (mechanic_id : Nat) : Except Err Mechanic :=
  match db.mechanics.find? (fun m => m.mechanic_id == mechanic_id) with
  | some m => .ok m
  | none => .error .mechanicNotFound

/-- `MechanicService.create_mechanic`: an existing record with the
user's uid is returned as is; otherwise the record is stored with
`uid := user.uid`. -/
def create_mechanic (db : DB) (mechanic : Mechanic) (user : User) : Mechanic × DB :=
  match db.mechanics.find? (fun m => m.uid == user.uid) with
  | some saved => (saved, db)
  | none =>
      let m := { mechanic with uid := user.uid }
      (m, { db with mechanics := db.mechanics ++ [m] })

/-- `MechanicService.patch_mechanic`: fetch, check ownership, update. -/
def patch_mechanic (db : DB) (mechanic_id : Nat) (changed : MechanicPatch)
    (user : User) : Except Err Mechanic × DB :=
  match get_mechanic_by_mechanic_id db mechanic_id with
  | .error e => (.error e, db)
  | .ok mechanic =>
      if mechanic.uid ≠ user.uid then
        (.error .mechanicBelongsToAnotherUser, db)
      else
        let m := applyMechanicPatch mechanic changed
        (.ok m,
          { db with mechanics := db.mechanics.map fun x =>
              if x.mechanic_id == mechanic.mechanic_id then m else x })

/-! ### AutoserviceService (`products/services/autoservice.py`) -/

/-- `AutoserviceUserService.get_autoservice_user_by_uid_and_autoservice_id`:
raises `AutoserviceUserNotFoundError` on a miss. -/
def get_autoservice_user_by_uid_and_autoservice_id (db : DB) (uid autoservice_id : Nat) :
    Except Err AutoserviceUser :=
  match db.autoservice_users.find?
      (fun au => au.uid == uid && au.autoservice_id == autoservice_id) with
  | some au => .ok au
  | none => .error .autoserviceUserNotFound

/-- `AutoserviceUserService.create_autoservice_owner`: stores the row
`(user.uid, autoservice.autoservice_id)` with
`list(AutoserviceUserPermissions)`. -/
def create_autoservice_owner (db : DB) (autoservice : Autoservice) (user : User) :
    AutoserviceUser × DB :=
  let au : AutoserviceUser :=
    { uid := user.uid
      autoservice_id := autoservice.autoservice_id
      permissions := allPermissions }
  (au, { db with autoservice_users := db.autoservice_users ++ [au] })

/-- `BaseAutoserviceService.get_autoservice_by_autoservice_id`: raises
`AutoserviceNotFoundError` on a miss. -/
def get_autoservice_by_autoservice_id (db : DB) (autoservice_id : Nat) :
    Except Err Autoservice :=
  match db.autoservices.find? (fun a => a.autoservice_id == autoservice_id) with
  | some a => .ok a
  | none => .error .autoserviceNotFound

/-- `AutoserviceService.create_autoservice`: stores the autoservice and
then its owner row. -/
def create_autoservice (db : DB) (autoservice : Autoservice) (user : User) :
    Autoservice × DB :=
  let db1 := { db with autoservices := db.autoservices ++ [autoservice] }
  let (_, db2) := create_autoservice_owner db1 autoservice user
  (autoservice, db2)

/-- `AutoserviceService.validate_autoservice_manage_provided_maintenance_permissions`:
requires an `AutoserviceUser` row for `(user.uid, autoservice_id)`
holding `autoservice:manage_provided_maintenance`. -/
def validate_autoservice_manage_provided_maintenance_permissions
    (db : DB) (autoservice : Autoservice) (user : User) : Except Err Unit :=
  match get_autoservice_user_by_uid_and_autoservice_id db user.uid autoservice.autoservice_id with
  | .error e => .error e
  | .ok au =>
      if Perm.autoservice_manage_provided_maintenance ∈ au.permissions then .ok ()
      else .error .autoserviceUserDoesntHavePermissions

/-- `AutoserviceService.patch_autoservice`: fetch, require the
`(user.uid, autoservice_id)` row to hold `autoservice:manage`, update. -/
def patch_autoservice (db : DB) (autoservice_id : Nat) (user : User)
    (changed : AutoservicePatch) : Except Err Autoservice × DB :=
  match get_autoservice_by_autoservice_id db autoservice_id with
  | .error e => (.error e, db)
  | .ok autoservice =>
      match get_autoservice_user_by_uid_and_autoservice_id db user.uid
          autoservice.autoservice_id with
      | .error e => (.error e, db)
      | .ok au =>
          if Perm.autoservice_manage ∉ au.permissions then
            (.error .autoserviceUserDoesntHavePermissions, db)
          else
            let a := applyAutoservicePatch autoservice changed
            (.ok a,
              { db with autoservices := db.autoservices.map fun x =>
                  if x.autoservice_id == autoservice_id then a else x })

/-! ### CountryService (`products/services/country.py`) -/

/-- `CountryService.get_country_by_country_id`: raises
`CountryNotFoundError` on a miss. -/
def get_country_by_country_id (db : DB) (country_id : Nat) : Except Err Country :=
  match db.countries.find? (fun c => c.country_id == country_id) with
  | some c => .ok c
  | none => .error .countryNotFound

/-! ### Vehicle services (`products/services/vehicle.py`) -/

/-- `VehicleBrandService.get_vehicle_brand_by_vehicle_brand_id`. -/
def get_vehicle_brand_by_vehicle_brand_id (db : DB) (vehicle_brand_id : Nat) :
    Except Err VehicleBrand :=
  match db.vehicle_brands.find? (fun b => b.vehicle_brand_id == vehicle_brand_id) with
  | some b => .ok b
  | none => .error .vehicleBrandNotFound

/-- `VehicleModelService.get_vehicle_model_by_vehicle_model_id`. -/
def get_vehicle_model_by_vehicle_model_id (db : DB) (vehicle_model_id : Nat) :
    Except Err VehicleModel :=
  match db.vehicle_models.find? (fun m => m.vehicle_model_id == vehicle_model_id) with
  | some m => .ok m
  | none => .error .vehicleModelNotFound

/-- `VehicleGenerationService.get_vehicle_generation_by_vehicle_generation_id`. -/
def get_vehicle_generation_by_vehicle_generation_id (db : DB) (vehicle_generation_id : Nat) :
    Except Err VehicleGeneration :=
  match db.vehicle_generations.find?
      (fun g => g.vehicle_generation_id == vehicle_generation_id) with
  | some g => .ok g
  | none => .error .vehicleGenerationNotFound

/-- `CommonVehicleService.validate_vehicle_params`: look the three ids
up (NotFound on a miss) and check that the model belongs to the brand
and the generation to the model. -/
def validate_vehicle_params (db : DB)
    (vehicle_brand_id vehicle_model_id vehicle_generation_id : Nat) :
    Except Err (VehicleBrand × VehicleModel × VehicleGeneration) :=
  match get_vehicle_brand_by_vehicle_brand_id db vehicle_brand_id with
  | .error e => .error e
  | .ok vehicle_brand =>
  match get_vehicle_model_by_vehicle_model_id db vehicle_model_id with
  | .error e => .error e
  | .ok vehicle_model =>
  if vehicle_model.vehicle_brand_id ≠ vehicle_brand.vehicle_brand_id then
    .error .vehicleModelDoesntMatchWithVehicleBrand
  else
  match get_vehicle_generation_by_vehicle_generation_id db vehicle_generation_id with
  | .error e => .error e
  | .ok vehicle_generation =>
  if vehicle_generation.vehicle_model_id ≠ vehicle_model.vehicle_model_id then
    .error .vehicleGenerationDoesntMatchWithVehicleModel
  else
    .ok (vehicle_brand, vehicle_model, vehicle_generation)

/-- `VehicleService.create_vehicle`: validate the brand/model/generation
chain, fetch the owning customer, then store the vehicle. -/
def create_vehicle (db : DB) (vehicle : Vehicle) : Except Err Vehicle × DB :=
  match validate_vehicle_params db vehicle.vehicle_brand_id vehicle.vehicle_model_id
      vehicle.vehicle_generation_id with
  | .error e => (.error e, db)
  | .ok _ =>
  match get_customer_by_customer_id db vehicle.customer_id with
  | .error e => (.error e, db)
  | .ok _ =>
      (.ok vehicle, { db with vehicles := db.vehicles ++ [vehicle] })

/-! ### Maintenance services (`products/services/maintenance.py`) -/

/-- `ProvidedMaintenanceTypeService.get_provided_maintenance_type_by_provided_maintenance_id`. -/
def get_provided_maintenance_type_by_provided_maintenance_id (db : DB)
    (provided_maintenance_type_id : Nat) : Except Err ProvidedMaintenanceType :=
  match db.provided_maintenance_types.find?
      (fun t => t.provided_maintenance_type_id == provided_maintenance_type_id) with
  | some t => .ok t
  | none => .error .providedMaintenanceTypeNotFound

/-- `BaseProvidedMaintenanceService.get_provided_maintenance_by_provided_maintenance_id`. -/
def get_provided_maintenance_by_provided_maintenance_id (db : DB)
    (provided_maintenance_id : Nat) : Except Err ProvidedMaintenance :=
  match db.provided_maintenance.find?
      (fun pm => pm.provided_maintenance_id == provided_maintenance_id) with
  | some pm => .ok pm
  | none => .error .providedMaintenanceNotFound

/-- Insert into `provided_maintenance`.  The table carries the CHECK
constraint `mechanic_id IS NOT NULL OR autoservice_id IS NOT NULL`
(`check_mechanic_or_autoservice`, `ProvidedMaintenance.__table_args__`),
so the database rejects a row with both executor keys null. -/
def insertProvidedMaintenance (db : DB) (pm : ProvidedMaintenance) :
    Except Err ProvidedMaintenance × DB :=
  if pm.mechanic_id = none ∧ pm.autoservice_id = none then
    (.error .checkMechanicOrAutoservice, db)
  else
    (.ok pm, { db with provided_maintenance := db.provided_maintenance ++ [pm] })

/-- The `mechanic_id` branch of
`ProvidedMaintenanceService.create_provided_maintenance`: when set,
fetch the mechanic and validate its owner. -/
def mechanicOwnerCheck (db : DB) (pm : ProvidedMaintenance) (user : User) :
    Except Err Unit :=
  match pm.mechanic_id with
  | none => .ok ()
  | some mechanic_id =>
      match get_mechanic_by_mechanic_id db mechanic_id with
      | .error e => .error e
      | .ok mechanic => validate_mechanic_owner mechanic user

/-- The `autoservice_id` branch of
`ProvidedMaintenanceService.create_provided_maintenance`: when set,
fetch the autoservice and validate the
`autoservice:manage_provided_maintenance` permission. -/
def autoservicePermissionCheck (db : DB) (pm : ProvidedMaintenance) (user : User) :
    Except Err Unit :=
  match pm.autoservice_id with
  | none => .ok ()
  | some autoservice_id =>
      match get_autoservice_by_autoservice_id db autoservice_id with
      | .error e => .error e
      | .ok autoservice =>
          validate_autoservice_manage_provided_maintenance_permissions db autoservice user

/-- `ProvidedMaintenanceService.create_provided_maintenance`: look the
type up, run the mechanic branch, run the autoservice branch, then
store the row. -/
def create_provided_maintenance (db : DB) (pm : ProvidedMaintenance) (user : User) :
    Except Err ProvidedMaintenance × DB :=
  match get_provided_maintenance_type_by_provided_maintenance_id db
      pm.provided_maintenance_type_id with
  | .error e => (.error e, db)
  | .ok _ =>
  match mechanicOwnerCheck db pm user with
  | .error e => (.error e, db)
  | .ok _ =>
  match autoservicePermissionCheck db pm user with
  | .error e => (.error e, db)
  | .ok _ => insertProvidedMaintenance db pm

/-- `ProvidedMaintenanceService._get_provided_maintenance_with_owner`:
fetch the row, then re-run the ownership check on its mechanic and the
permission check on its autoservice. -/
def get_provided_maintenance_with_owner (db : DB) (provided_maintenance_id : Nat)
    (user : User) : Except Err ProvidedMaintenance :=
  match get_provided_maintenance_by_provided_maintenance_id db provided_maintenance_id with
  | .error e => .error e
  | .ok pm =>
  match (match pm.mechanic_id with
         | none => Except.ok ()
         | some mechanic_id =>
             match get_mechanic_by_mechanic_id db mechanic_id with
             | .error e => .error e
             | .ok mechanic =>
                 if mechanic.uid ≠ user.uid then
                   Except.error Err.mechanicBelongsToAnotherUser
                 else .ok ()) with
  | .error e => .error e
  | .ok _ =>
  match (match pm.autoservice_id with
         | none => Except.ok ()
         | some autoservice_id =>
             match get_autoservice_by_autoservice_id db autoservice_id with
             | .error e => .error e
             | .ok autoservice =>
                 validate_autoservice_manage_provided_maintenance_permissions db
                   autoservice user) with
  | .error e => .error e
  | .ok _ => .ok pm

namespace ProvidedMaintenanceCountryAssociationService

/-- `ProvidedMaintenanceCountryAssociationService.create_provided_maintenance_country_association`:
reject a duplicate `(provided_maintenance_id, country_id)` pair,
otherwise store the row. -/
def create_provided_maintenance_country_association (db : DB)
    (assoc : ProvidedMaintenanceCountryAssociation) :
    Except Err ProvidedMaintenanceCountryAssociation × DB :=
  if db.pm_country_assoc.any (fun x =>
      x.provided_maintenance_id == assoc.provided_maintenance_id &&
        x.country_id == assoc.country_id) then
    (.error .providedMaintenanceCountryAssociationAlreadyExists, db)
  else
    (.ok assoc, { db with pm_country_assoc := db.pm_country_assoc ++ [assoc] })

end ProvidedMaintenanceCountryAssociationService

namespace ProvidedMaintenanceVehicleBrandAssociationService

/-- `ProvidedMaintenanceVehicleBrandAssociationService.create_provided_maintenance_vehicle_brand_association`:
reject a duplicate `(provided_maintenance_id, vehicle_brand_id)` pair,
otherwise store the row. -/
def create_provided_maintenance_vehicle_brand_association (db : DB)
    (assoc : ProvidedMaintenanceVehicleBrandAssociation) :
    Except Err ProvidedMaintenanceVehicleBrandAssociation × DB :=
  if db.pm_vehicle_brand_assoc.any (fun x =>
      x.provided_maintenance_id == assoc.provided_maintenance_id &&
        x.vehicle_brand_id == assoc.vehicle_brand_id) then
    (.error .providedMaintenanceVehicleBrandAssociationAlreadyExists, db)
  else
    (.ok assoc,
      { db with pm_vehicle_brand_assoc := db.pm_vehicle_brand_assoc ++ [assoc] })

end ProvidedMaintenanceVehicleBrandAssociationService

/-- `ProvidedMaintenanceService.create_provided_maintenance_country_association`:
validate the maintenance row and its owner, look the country up, then
delegate to the association service. -/
def create_provided_maintenance_country_association (db : DB)
    (assoc : ProvidedMaintenanceCountryAssociation) (user : User) :
    Except Err ProvidedMaintenanceCountryAssociation × DB :=
  match get_provided_maintenance_with_owner db assoc.provided_maintenance_id user with
  | .error e => (.error e, db)
  | .ok _ =>
  match get_country_by_country_id db assoc.country_id with
  | .error e => (.error e, db)
  | .ok _ =>
      ProvidedMaintenanceCountryAssociationService.create_provided_maintenance_country_association
        db assoc

/-- `ProvidedMaintenanceService.create_provided_maintenance_vehicle_brand_association`:
validate the maintenance row and its owner, look the brand up, then
delegate to the association service. -/
def create_provided_maintenance_vehicle_brand_association (db : DB)
    (assoc : ProvidedMaintenanceVehicleBrandAssociation) (user : User) :
    Except Err ProvidedMaintenanceVehicleBrandAssociation × DB :=
  match get_provided_maintenance_with_owner db assoc.provided_maintenance_id user with
  | .error e => (.error e, db)
  | .ok _ =>
  match get_vehicle_brand_by_vehicle_brand_id db assoc.vehicle_brand_id with
  | .error e => (.error e, db)
  | .ok _ =>
      ProvidedMaintenanceVehicleBrandAssociationService.create_provided_maintenance_vehicle_brand_association
        db assoc

/-! ### Spec-side predicates

These definitions follow the wording of the specification (not the
code); the validator theorems below compare the embedded code against
them. -/

/-- C8: customer and mechanic name validation accept exactly the
strings whose length lies between 2 and 150 characters inclusive, and
raise a client error for shorter or longer strings. -/
theorem name_validation_iff_length_bounds :
    ∀ s : String,
      (accepts (Customer.validate_name s) = true ↔ 2 ≤ s.length ∧ s.length ≤ 150) ∧
      (accepts (Mechanic.validate_name s) = true ↔ 2 ≤ s.length ∧ s.length ≤ 150) := by
  intro s
  refine ⟨?_, ?_⟩ <;>
    · simp only [Customer.validate_name, Mechanic.validate_name]
      split
      · rename_i h
        simp only [accepts, Bool.false_eq_true, false_iff]
        omega
      · split
        · rename_i h
          simp only [accepts, Bool.false_eq_true, false_iff]
          omega
        · rename_i h1 h2
          simp only [accepts, true_iff]
          omega

/-! ### Claim C1 -/

/-- C1: `patch_customer` and `patch_mechanic` apply the update exactly
when the stored record's uid equals the requesting user's uid, and
otherwise raise the belongs-to-another-user error with the store
unchanged; `patch_autoservice` applies the update exactly when an
`AutoserviceUser` row for `(user.uid, autoservice_id)` exists and holds
`autoservice:manage`, and otherwise raises a permission error with the
store unchanged. -/
theorem patch_ownership_and_permissions :
    (∀ (db : DB) (cid : Nat) (p : CustomerPatch) (user : User) (c : Customer),
        get_customer_by_customer_id db cid = .ok c →
        (c.uid ≠ user.uid →
          patch_customer db cid p user = (.error .customerBelongsToAnotherUser, db)) ∧
        (c.uid = user.uid →
          (patch_customer db cid p user).1 = .ok (applyCustomerPatch c p))) ∧
    (∀ (db : DB) (mid : Nat) (p : MechanicPatch) (user : User) (m : Mechanic),
        get_mechanic_by_mechanic_id db mid = .ok m →
        (m.uid ≠ user.uid →
          patch_mechanic db mid p user = (.error .mechanicBelongsToAnotherUser, db)) ∧
        (m.uid = user.uid →
          (patch_mechanic db mid p user).1 = .ok (applyMechanicPatch m p))) ∧
    (∀ (db : DB) (aid : Nat) (p : AutoservicePatch) (user : User) (a : Autoservice),
        get_autoservice_by_autoservice_id db aid = .ok a →
        ((∀ au, get_autoservice_user_by_uid_and_autoservice_id db user.uid a.autoservice_id = .ok au →
            Perm.autoservice_manage ∈ au.permissions →
            (patch_autoservice db aid user p).1 = .ok (applyAutoservicePatch a p)) ∧
         (¬ (∃ au, get_autoservice_user_by_uid_and_autoservice_id db user.uid a.autoservice_id = .ok au ∧
              Perm.autoservice_manage ∈ au.permissions) →
            ∃ e, patch_autoservice db aid user p = (.error e, db) ∧ e.isPermissionError = true))) := by
  refine ⟨?_, ?_, ?_⟩
  · intro db cid p user c hget
    constructor
    · intro hne
      simp only [patch_customer, hget]
      rw [if_pos hne]
    · intro heq
      simp only [patch_customer, hget]
      rw [if_neg (by simp [heq])]
  · intro db mid p user m hget
    constructor
    · intro hne
      simp only [patch_mechanic, hget]
      rw [if_pos hne]
    · intro heq
      simp only [patch_mechanic, hget]
      rw [if_neg (by simp [heq])]
  · intro db aid p user a hget
    constructor
    · intro au hau hperm
      simp only [patch_autoservice, hget, hau]
      rw [if_neg (by simp [hperm])]
    · intro hnot
      cases hau : get_autoservice_user_by_uid_and_autoservice_id db user.uid a.autoservice_id with
      | error e =>
          refine ⟨e, ?_, ?_⟩
          · simp only [patch_autoservice, hget, hau]
          · unfold get_autoservice_user_by_uid_and_autoservice_id at hau
            cases hfind : db.autoservice_users.find?
                (fun au => au.uid == user.uid && au.autoservice_id == a.autoservice_id) with
            | some au => rw [hfind] at hau; cases hau
            | none => rw [hfind] at hau; cases hau; decide
      | ok au =>
          have hperm : Perm.autoservice_manage ∉ au.permissions := by
            intro hmem
            exact hnot ⟨au, hau, hmem⟩
          refine ⟨.autoserviceUserDoesntHavePermissions, ?_, by decide⟩
          simp only [patch_autoservice, hget, hau]
          rw [if_pos hperm]

/-- Concrete store for the ownership witness: one customer owned by
uid 10. -/
def ownershipWitnessCustomerDB : DB :=
  { customers := [{ customer_id := 1, name := "ab", city := none, uid := 10 }] }

/-- Concrete store for the ownership witness: one mechanic owned by
uid 20. -/
def ownershipWitnessMechanicDB : DB :=
  { mechanics := [{ mechanic_id := 2, name := "ab", description := none, city := "c",
                     address := none, private_ := true, mobile := false, uid := 20 }] }

/-- Concrete store for the ownership witness: one autoservice and a
user row lacking `autoservice:manage`. -/
def ownershipWitnessAutoserviceDB : DB :=
  { autoservices := [{ autoservice_id := 3, name := "nn", description := none,
                        itn := "1234567890", psrn := "1234567890123", city := "",
                        address := "a" }]
    autoservice_users := [{ uid := 30, autoservice_id := 3,
                            permissions := [.autoservice_manage_provided_maintenance] }] }

theorem patch_ownership_witness :
    patch_customer ownershipWitnessCustomerDB 1 {} ⟨11⟩ =
      (.error .customerBelongsToAnotherUser, ownershipWitnessCustomerDB) ∧
    (patch_mechanic ownershipWitnessMechanicDB 2 {} ⟨20⟩).1 =
      .ok (applyMechanicPatch { mechanic_id := 2, name := "ab", description := none,
                                city := "c", address := none, private_ := true,
                                mobile := false, uid := 20 } {}) ∧
    (∃ e, patch_autoservice ownershipWitnessAutoserviceDB 3 ⟨30⟩ {} =
      (.error e, ownershipWitnessAutoserviceDB) ∧ e.isPermissionError = true) := by
  refine ⟨?_, ?_, ?_⟩
  · exact (patch_ownership_and_permissions.1 ownershipWitnessCustomerDB 1 {} ⟨11⟩ _ rfl).1
      (by decide)
  · exact (patch_ownership_and_permissions.2.1 ownershipWitnessMechanicDB 2 {} ⟨20⟩ _ rfl).2
      (by decide)
  · refine (patch_ownership_and_permissions.2.2 ownershipWitnessAutoserviceDB 3 {} ⟨30⟩ _ rfl).2 ?_
    rintro ⟨au, hau, hperm⟩
    have h2 : (Except.ok ⟨30, 3, [Perm.autoservice_manage_provided_maintenance]⟩ :
        Except Err AutoserviceUser) = Except.ok au := hau
    injection h2 with h
    subst h
    exact absurd hperm (by decide)

/-! ### Claim C9 -/

/-- At most one customer row per user uid. -/
def customersAtMostOnePerUid (db : DB) : Prop :=
  ∀ u : Nat, (db.customers.countP fun c => c.uid == u) ≤ 1

/-- At most one mechanic row per user uid. -/
def mechanicsAtMostOnePerUid (db : DB) : Prop :=
  ∀ u : Nat, (db.mechanics.countP fun m => m.uid == u) ≤ 1

/-- C9: when a Customer (Mechanic) owned by the user's uid already
exists, `create_customer` (`create_mechanic`) returns that record and
leaves the store unchanged; creation preserves the
at-most-one-record-per-uid invariant, and a second creation by the same
user is a no-op returning the first record. -/
theorem create_customer_mechanic_unique_per_user :
    (∀ (db : DB) (c : Customer) (user : User) (saved : Customer),
        db.customers.find? (fun x => x.uid == user.uid) = some saved →
        create_customer db c user = (saved, db)) ∧
    (∀ (db : DB) (c : Customer) (user : User),
        customersAtMostOnePerUid db → customersAtMostOnePerUid (create_customer db c user).2) ∧
    (∀ (db : DB) (c c2 : Customer) (user : User),
        create_customer (create_customer db c user).2 c2 user =
          ((create_customer db c user).1, (create_customer db c user).2)) ∧
    (∀ (db : DB) (m : Mechanic) (user : User) (saved : Mechanic),
        db.mechanics.find? (fun x => x.uid == user.uid) = some saved →
        create_mechanic db m user = (saved, db)) ∧
    (∀ (db : DB) (m : Mechanic) (user : User),
        mechanicsAtMostOnePerUid db → mechanicsAtMostOnePerUid (create_mechanic db m user).2) ∧
    (∀ (db : DB) (m m2 : Mechanic) (user : User),
        create_mechanic (create_mechanic db m user).2 m2 user =
          ((create_mechanic db m user).1, (create_mechanic db m user).2)) := by
  refine ⟨?_, ?_, ?_, ?_, ?_, ?_⟩
  · intro db c user saved hfind
    simp [create_customer, hfind]
  · intro db c user hinv
    cases hfind : db.customers.find? (fun x => x.uid == user.uid) with
    | some saved => simpa [create_customer, hfind] using hinv
    | none =>
        intro u
        simp only [create_customer, hfind, List.countP_append]
        by_cases hu : user.uid = u
        · have h0 : (db.customers.countP fun c => c.uid == u) = 0 := by
            rw [List.countP_eq_zero]
            intro x hx
            have := List.find?_eq_none.mp hfind x hx
            simpa [hu] using this
          simp [h0, List.countP_cons, hu]
        · have : (([{ c with uid := user.uid }] : List Customer).countP fun c => c.uid == u) = 0 := by
            simp [List.countP_cons, hu]
          rw [this]
          simpa using hinv u
  · intro db c c2 user
    cases hfind : db.customers.find? (fun x => x.uid == user.uid) with
    | some saved => simp [create_customer, hfind]
    | none => simp [create_customer, hfind, List.find?_append]
  · intro db m user saved hfind
    simp [create_mechanic, hfind]
  · intro db m user hinv
    cases hfind : db.mechanics.find? (fun x => x.uid == user.uid) with
    | some saved => simpa [create_mechanic, hfind] using hinv
    | none =>
        intro u
        simp only [create_mechanic, hfind, List.countP_append]
        by_cases hu : user.uid = u
        · have h0 : (db.mechanics.countP fun m => m.uid == u) = 0 := by
            rw [List.countP_eq_zero]
            intro x hx
            have := List.find?_eq_none.mp hfind x hx
            simpa [hu] using this
          simp [h0, List.countP_cons, hu]
        · have : (([{ m with uid := user.uid }] : List Mechanic).countP fun m => m.uid == u) = 0 := by
            simp [List.countP_cons, hu]
          rw [this]
          simpa using hinv u
  · intro db m m2 user
    cases hfind : db.mechanics.find? (fun x => x.uid == user.uid) with
    | some saved => simp [create_mechanic, hfind]
    | none => simp [create_mechanic, hfind, List.find?_append]

/-- Concrete store for the uniqueness witness: one customer and one
mechanic, both owned by uid 7. -/
def uniqueWitnessDB : DB :=
  { customers := [{ customer_id := 1, name := "ab", city := none, uid := 7 }]
    mechanics := [{ mechanic_id := 2, name := "ab", description := none, city := "c",
                    address := none, private_ := true, mobile := false, uid := 7 }] }

/-- Witness for the uniqueness theorem on a concrete store. -/
theorem create_customer_mechanic_unique_witness :
    create_customer uniqueWitnessDB { customer_id := 9, name := "zz", city := none, uid := 0 } ⟨7⟩ =
      ({ customer_id := 1, name := "ab", city := none, uid := 7 }, uniqueWitnessDB) ∧
    customersAtMostOnePerUid
      (create_customer uniqueWitnessDB
        { customer_id := 9, name := "zz", city := none, uid := 0 } ⟨7⟩).2 ∧
    create_mechanic uniqueWitnessDB
        { mechanic_id := 9, name := "zz", description := none, city := "c", address := none,
          private_ := false, mobile := false, uid := 0 } ⟨7⟩ =
      ({ mechanic_id := 2, name := "ab", description := none, city := "c", address := none,
         private_ := true, mobile := false, uid := 7 }, uniqueWitnessDB) ∧
    mechanicsAtMostOnePerUid
      (create_mechanic uniqueWitnessDB
        { mechanic_id := 9, name := "zz", description := none, city := "c", address := none,
          private_ := false, mobile := false, uid := 0 } ⟨7⟩).2 := by
  refine ⟨?_, ?_, ?_, ?_⟩
  · exact create_customer_mechanic_unique_per_user.1 uniqueWitnessDB _ ⟨7⟩ _ rfl
  · exact create_customer_mechanic_unique_per_user.2.1 uniqueWitnessDB _ ⟨7⟩
      (by intro u; simp [uniqueWitnessDB, List.countP_cons]; split <;> omega)
  · exact create_customer_mechanic_unique_per_user.2.2.2.1 uniqueWitnessDB _ ⟨7⟩ _ rfl
  · exact create_customer_mechanic_unique_per_user.2.2.2.2.1 uniqueWitnessDB _ ⟨7⟩
      (by intro u; simp [uniqueWitnessDB, List.countP_cons]; split <;> omega)

/-! ### Claim C10 -/

/-- C10: every `create_autoservice` call also stores an
`AutoserviceUser` row keyed by `(user.uid, autoservice_id)` holding the
full permission set, i.e. both `autoservice:manage` and
`autoservice:manage_provided_maintenance`. -/
theorem create_autoservice_grants_owner_permissions :
    ∀ (db : DB) (a : Autoservice) (user : User),
      (create_autoservice db a user).1 = a ∧
      ({ uid := user.uid, autoservice_id := a.autoservice_id, permissions := allPermissions } :
          AutoserviceUser) ∈ (create_autoservice db a user).2.autoservice_users ∧
      Perm.autoservice_manage ∈ allPermissions ∧
      Perm.autoservice_manage_provided_maintenance ∈ allPermissions := by
  intro db a user
  refine ⟨rfl, ?_, by decide, by decide⟩
  simp [create_autoservice, create_autoservice_owner]

/-! ### Claim C3 -/

/-- C3: `create_vehicle` succeeds only when the referenced model's
`vehicle_brand_id` equals the given brand id and the referenced
generation's `vehicle_model_id` equals the given model id; a missing id
propagates the corresponding NotFound error, a broken link raises the
corresponding mismatch error, and in every error case no vehicle is
stored. -/
theorem create_vehicle_chain_consistency :
    (∀ (db : DB) (v : Vehicle) (e : Err),
        (create_vehicle db v).1 = .error e → (create_vehicle db v).2 = db) ∧
    (∀ (db : DB) (v v' : Vehicle),
        (create_vehicle db v).1 = .ok v' →
        ∃ vb vm vg,
          get_vehicle_brand_by_vehicle_brand_id db v.vehicle_brand_id = .ok vb ∧
          get_vehicle_model_by_vehicle_model_id db v.vehicle_model_id = .ok vm ∧
          get_vehicle_generation_by_vehicle_generation_id db v.vehicle_generation_id = .ok vg ∧
          vm.vehicle_brand_id = vb.vehicle_brand_id ∧
          vg.vehicle_model_id = vm.vehicle_model_id) ∧
    (∀ (db : DB) (v : Vehicle) (e : Err),
        get_vehicle_brand_by_vehicle_brand_id db v.vehicle_brand_id = .error e →
        create_vehicle db v = (.error e, db)) ∧
    (∀ (db : DB) (v : Vehicle) (vb : VehicleBrand) (e : Err),
        get_vehicle_brand_by_vehicle_brand_id db v.vehicle_brand_id = .ok vb →
        get_vehicle_model_by_vehicle_model_id db v.vehicle_model_id = .error e →
        create_vehicle db v = (.error e, db)) ∧
    (∀ (db : DB) (v : Vehicle) (vb : VehicleBrand) (vm : VehicleModel),
        get_vehicle_brand_by_vehicle_brand_id db v.vehicle_brand_id = .ok vb →
        get_vehicle_model_by_vehicle_model_id db v.vehicle_model_id = .ok vm →
        vm.vehicle_brand_id ≠ vb.vehicle_brand_id →
        create_vehicle db v = (.error .vehicleModelDoesntMatchWithVehicleBrand, db)) ∧
    (∀ (db : DB) (v : Vehicle) (vb : VehicleBrand) (vm : VehicleModel) (e : Err),
        get_vehicle_brand_by_vehicle_brand_id db v.vehicle_brand_id = .ok vb →
        get_vehicle_model_by_vehicle_model_id db v.vehicle_model_id = .ok vm →
        vm.vehicle_brand_id = vb.vehicle_brand_id →
        get_vehicle_generation_by_vehicle_generation_id db v.vehicle_generation_id = .error e →
        create_vehicle db v = (.error e, db)) ∧
    (∀ (db : DB) (v : Vehicle) (vb : VehicleBrand) (vm : VehicleModel) (vg : VehicleGeneration),
        get_vehicle_brand_by_vehicle_brand_id db v.vehicle_brand_id = .ok vb →
        get_vehicle_model_by_vehicle_model_id db v.vehicle_model_id = .ok vm →
        vm.vehicle_brand_id = vb.vehicle_brand_id →
        get_vehicle_generation_by_vehicle_generation_id db v.vehicle_generation_id = .ok vg →
        vg.vehicle_model_id ≠ vm.vehicle_model_id →
        create_vehicle db v = (.error .vehicleGenerationDoesntMatchWithVehicleModel, db)) := by
  refine ⟨?_, ?_, ?_, ?_, ?_, ?_, ?_⟩
  · intro db v e h
    cases hv : validate_vehicle_params db v.vehicle_brand_id v.vehicle_model_id
        v.vehicle_generation_id with
    | error e' => simp [create_vehicle, hv]
    | ok t =>
        cases hc : get_customer_by_customer_id db v.customer_id with
        | error e' => simp [create_vehicle, hv, hc]
        | ok c => simp [create_vehicle, hv, hc] at h
  · intro db v v' h
    cases hv : validate_vehicle_params db v.vehicle_brand_id v.vehicle_model_id
        v.vehicle_generation_id with
    | error e' => simp [create_vehicle, hv] at h
    | ok t =>
        obtain ⟨vb, vm, vg⟩ := t
        cases hb : get_vehicle_brand_by_vehicle_brand_id db v.vehicle_brand_id with
        | error e => simp [validate_vehicle_params, hb] at hv
        | ok vb' =>
        cases hm : get_vehicle_model_by_vehicle_model_id db v.vehicle_model_id with
        | error e => simp [validate_vehicle_params, hb, hm] at hv
        | ok vm' =>
        by_cases hbm : vm'.vehicle_brand_id ≠ vb'.vehicle_brand_id
        · simp [validate_vehicle_params, hb, hm, hbm] at hv
        · cases hg : get_vehicle_generation_by_vehicle_generation_id db
              v.vehicle_generation_id with
          | error e => simp [validate_vehicle_params, hb, hm, hbm, hg] at hv
          | ok vg' =>
          by_cases hmg : vg'.vehicle_model_id ≠ vm'.vehicle_model_id
          · simp [validate_vehicle_params, hb, hm, hbm, hg, hmg] at hv
          · push_neg at hbm hmg
            exact ⟨vb', vm', vg', rfl, rfl, rfl, hbm, hmg⟩
  · intro db v e hb
    simp [create_vehicle, validate_vehicle_params, hb]
  · intro db v vb e hb hm
    simp [create_vehicle, validate_vehicle_params, hb, hm]
  · intro db v vb vm hb hm hne
    simp [create_vehicle, validate_vehicle_params, hb, hm, hne]
  · intro db v vb vm e hb hm heq hg
    simp [create_vehicle, validate_vehicle_params, hb, hm, heq, hg]
  · intro db v vb vm vg hb hm heq hg hne
    simp [create_vehicle, validate_vehicle_params, hb, hm, heq, hg, hne]

/-! ### Claim C4 -/

/-- Each `(provided_maintenance_id, country_id)` pair occurs at most
once. -/
def countryAssocUnique (db : DB) : Prop :=
  ∀ pmid cid : Nat,
    (db.pm_country_assoc.countP fun x =>
      x.provided_maintenance_id == pmid && x.country_id == cid) ≤ 1

/-- Each `(provided_maintenance_id, vehicle_brand_id)` pair occurs at
most once. -/
def brandAssocUnique (db : DB) : Prop :=
  ∀ pmid bid : Nat,
    (db.pm_vehicle_brand_assoc.countP fun x =>
      x.provided_maintenance_id == pmid && x.vehicle_brand_id == bid) ≤ 1

lemma countryAssocSvc_preserves (db : DB) (assoc : ProvidedMaintenanceCountryAssociation)
    (h : countryAssocUnique db) :
    countryAssocUnique
      (ProvidedMaintenanceCountryAssociationService.create_provided_maintenance_country_association
        db assoc).2 := by
  unfold ProvidedMaintenanceCountryAssociationService.create_provided_maintenance_country_association
  split
  · exact h
  · rename_i hdup
    intro pmid cid
    simp only [List.countP_append]
    by_cases hp : assoc.provided_maintenance_id = pmid ∧ assoc.country_id = cid
    · have h0 : (db.pm_country_assoc.countP fun x =>
          x.provided_maintenance_id == pmid && x.country_id == cid) = 0 := by
        rw [List.countP_eq_zero]
        intro x hx
        intro hpx
        apply hdup
        rw [List.any_eq_true]
        refine ⟨x, hx, ?_⟩
        simp only [Bool.and_eq_true, beq_iff_eq] at hpx ⊢
        omega
      rw [h0]
      simp [List.countP_cons, hp.1, hp.2]
    · have hfalse : (assoc.provided_maintenance_id == pmid && assoc.country_id == cid) = false := by
        cases hb : (assoc.provided_maintenance_id == pmid && assoc.country_id == cid)
        · rfl
        · exfalso
          apply hp
          simpa [Bool.and_eq_true, beq_iff_eq] using hb
      have h1 : (([assoc] : List ProvidedMaintenanceCountryAssociation).countP fun x =>
          x.provided_maintenance_id == pmid && x.country_id == cid) = 0 := by
        simp [List.countP_cons, hfalse]
      rw [h1]
      have := h pmid cid
      omega

lemma brandAssocSvc_preserves (db : DB) (assoc : ProvidedMaintenanceVehicleBrandAssociation)
    (h : brandAssocUnique db) :
    brandAssocUnique
      (ProvidedMaintenanceVehicleBrandAssociationService.create_provided_maintenance_vehicle_brand_association
        db assoc).2 := by
  unfold ProvidedMaintenanceVehicleBrandAssociationService.create_provided_maintenance_vehicle_brand_association
  split
  · exact h
  · rename_i hdup
    intro pmid bid
    simp only [List.countP_append]
    by_cases hp : assoc.provided_maintenance_id = pmid ∧ assoc.vehicle_brand_id = bid
    · have h0 : (db.pm_vehicle_brand_assoc.countP fun x =>
          x.provided_maintenance_id == pmid && x.vehicle_brand_id == bid) = 0 := by
        rw [List.countP_eq_zero]
        intro x hx
        intro hpx
        apply hdup
        rw [List.any_eq_true]
        refine ⟨x, hx, ?_⟩
        simp only [Bool.and_eq_true, beq_iff_eq] at hpx ⊢
        omega
      rw [h0]
      simp [List.countP_cons, hp.1, hp.2]
    · have hfalse : (assoc.provided_maintenance_id == pmid && assoc.vehicle_brand_id == bid) = false := by
        cases hb : (assoc.provided_maintenance_id == pmid && assoc.vehicle_brand_id == bid)
        · rfl
        · exfalso
          apply hp
          simpa [Bool.and_eq_true, beq_iff_eq] using hb
      have h1 : (([assoc] : List ProvidedMaintenanceVehicleBrandAssociation).countP fun x =>
          x.provided_maintenance_id == pmid && x.vehicle_brand_id == bid) = 0 := by
        simp [List.countP_cons, hfalse]
      rw [h1]
      have := h pmid bid
      omega

/-- C4: creating a country or vehicle-brand association whose
`(provided_maintenance_id, country_id)` /
`(provided_maintenance_id, vehicle_brand_id)` pair already exists
raises the AlreadyExists error and adds no row, and both association
creation flows preserve the at-most-once invariant on the pairs. -/
theorem association_pairs_unique :
    (∀ (db : DB) (assoc : ProvidedMaintenanceCountryAssociation),
        (db.pm_country_assoc.any fun x =>
          x.provided_maintenance_id == assoc.provided_maintenance_id &&
            x.country_id == assoc.country_id) = true →
        ProvidedMaintenanceCountryAssociationService.create_provided_maintenance_country_association
            db assoc =
          (.error .providedMaintenanceCountryAssociationAlreadyExists, db)) ∧
    (∀ (db : DB) (assoc : ProvidedMaintenanceVehicleBrandAssociation),
        (db.pm_vehicle_brand_assoc.any fun x =>
          x.provided_maintenance_id == assoc.provided_maintenance_id &&
            x.vehicle_brand_id == assoc.vehicle_brand_id) = true →
        ProvidedMaintenanceVehicleBrandAssociationService.create_provided_maintenance_vehicle_brand_association
            db assoc =
          (.error .providedMaintenanceVehicleBrandAssociationAlreadyExists, db)) ∧
    (∀ (db : DB) (assoc : ProvidedMaintenanceCountryAssociation) (user : User),
        countryAssocUnique db →
        countryAssocUnique (create_provided_maintenance_country_association db assoc user).2) ∧
    (∀ (db : DB) (assoc : ProvidedMaintenanceVehicleBrandAssociation) (user : User),
        brandAssocUnique db →
        brandAssocUnique (create_provided_maintenance_vehicle_brand_association db assoc user).2) := by
  refine ⟨?_, ?_, ?_, ?_⟩
  · intro db assoc hdup
    unfold ProvidedMaintenanceCountryAssociationService.create_provided_maintenance_country_association
    rw [if_pos hdup]
  · intro db assoc hdup
    unfold ProvidedMaintenanceVehicleBrandAssociationService.create_provided_maintenance_vehicle_brand_association
    rw [if_pos hdup]
  · intro db assoc user h
    unfold create_provided_maintenance_country_association
    cases hown : get_provided_maintenance_with_owner db assoc.provided_maintenance_id user with
    | error e => exact h
    | ok pm =>
        cases hc : get_country_by_country_id db assoc.country_id with
        | error e => exact h
        | ok c => exact countryAssocSvc_preserves db assoc h
  · intro db assoc user h
    unfold create_provided_maintenance_vehicle_brand_association
    cases hown : get_provided_maintenance_with_owner db assoc.provided_maintenance_id user with
    | error e => exact h
    | ok pm =>
        cases hb : get_vehicle_brand_by_vehicle_brand_id db assoc.vehicle_brand_id with
        | error e => exact h
        | ok b => exact brandAssocSvc_preserves db assoc h

/-- Concrete store for the association-uniqueness witness: one country
pair `(1, 2)` and one brand pair `(1, 3)` already present. -/
def assocWitnessDB : DB :=
  { pm_country_assoc := [{ provided_maintenance_id := 1, country_id := 2 }]
    pm_vehicle_brand_assoc := [{ provided_maintenance_id := 1, vehicle_brand_id := 3 }] }

/-- Witness for the association-uniqueness theorem on a concrete
store. -/
theorem association_pairs_unique_witness :
    ProvidedMaintenanceCountryAssociationService.create_provided_maintenance_country_association
        assocWitnessDB { provided_maintenance_id := 1, country_id := 2 } =
      (.error .providedMaintenanceCountryAssociationAlreadyExists, assocWitnessDB) ∧
    ProvidedMaintenanceVehicleBrandAssociationService.create_provided_maintenance_vehicle_brand_association
        assocWitnessDB { provided_maintenance_id := 1, vehicle_brand_id := 3 } =
      (.error .providedMaintenanceVehicleBrandAssociationAlreadyExists, assocWitnessDB) ∧
    countryAssocUnique
      (create_provided_maintenance_country_association assocWitnessDB
        { provided_maintenance_id := 1, country_id := 2 } ⟨5⟩).2 ∧
    brandAssocUnique
      (create_provided_maintenance_vehicle_brand_association assocWitnessDB
        { provided_maintenance_id := 1, vehicle_brand_id := 3 } ⟨5⟩).2 := by
  refine ⟨?_, ?_, ?_, ?_⟩
  · exact association_pairs_unique.1 assocWitnessDB _ (by decide)
  · exact association_pairs_unique.2.1 assocWitnessDB _ (by decide)
  · exact association_pairs_unique.2.2.1 assocWitnessDB _ ⟨5⟩
      (by intro pmid cid; simp [assocWitnessDB, List.countP_cons]; split <;> omega)
  · exact association_pairs_unique.2.2.2 assocWitnessDB _ ⟨5⟩
      (by intro pmid bid; simp [assocWitnessDB, List.countP_cons]; split <;> omega)

/-- Every stored `ProvidedMaintenance` row has a mechanic or an
autoservice. -/
def pmExecutorInv (db : DB) : Prop :=
  ∀ pm ∈ db.provided_maintenance, pm.mechanic_id ≠ none ∨ pm.autoservice_id ≠ none

/-! ### Claim C5 -/

/-- C5: every stored `ProvidedMaintenance` row has `mechanic_id` or
`autoservice_id` non-null: the check constraint rejects an insert with
both null, `create_provided_maintenance` preserves the invariant, and
the association operations never touch the `provided_maintenance`
table. -/
theorem provided_maintenance_executor_invariant :
    (∀ (db : DB) (pm : ProvidedMaintenance) (user : User) (pm' : ProvidedMaintenance),
        (create_provided_maintenance db pm user).1 = .ok pm' →
        pm'.mechanic_id ≠ none ∨ pm'.autoservice_id ≠ none) ∧
    (∀ (db : DB) (pm : ProvidedMaintenance) (user : User),
        pmExecutorInv db → pmExecutorInv (create_provided_maintenance db pm user).2) ∧
    (∀ (db : DB) (assoc : ProvidedMaintenanceCountryAssociation) (user : User),
        (create_provided_maintenance_country_association db assoc user).2.provided_maintenance =
          db.provided_maintenance) ∧
    (∀ (db : DB) (assoc : ProvidedMaintenanceVehicleBrandAssociation) (user : User),
        (create_provided_maintenance_vehicle_brand_association db assoc user).2.provided_maintenance =
          db.provided_maintenance) := by
  refine ⟨?_, ?_, ?_, ?_⟩
  · intro db pm user pm' h
    cases hty : get_provided_maintenance_type_by_provided_maintenance_id db
        pm.provided_maintenance_type_id with
    | error e => simp [create_provided_maintenance, hty] at h
    | ok ty =>
    cases hmc : mechanicOwnerCheck db pm user with
    | error e => simp [create_provided_maintenance, hty, hmc] at h
    | ok u1 =>
    cases hac : autoservicePermissionCheck db pm user with
    | error e => simp [create_provided_maintenance, hty, hmc, hac] at h
    | ok u2 =>
        simp only [create_provided_maintenance, hty, hmc, hac, insertProvidedMaintenance] at h
        split at h
        · simp at h
        · rename_i hguard
          simp only [Prod.fst] at h
          injection h with h
          subst h
          rcases Decidable.not_and_iff_or_not.mp hguard with hm | ha
          · exact Or.inl hm
          · exact Or.inr ha
  · intro db pm user hinv
    cases hty : get_provided_maintenance_type_by_provided_maintenance_id db
        pm.provided_maintenance_type_id with
    | error e => simpa [create_provided_maintenance, hty] using hinv
    | ok ty =>
    cases hmc : mechanicOwnerCheck db pm user with
    | error e => simpa [create_provided_maintenance, hty, hmc] using hinv
    | ok u1 =>
    cases hac : autoservicePermissionCheck db pm user with
    | error e => simpa [create_provided_maintenance, hty, hmc, hac] using hinv
    | ok u2 =>
        simp only [create_provided_maintenance, hty, hmc, hac, insertProvidedMaintenance]
        split
        · exact hinv
        · rename_i hguard
          intro x hx
          simp only [List.mem_append, List.mem_singleton] at hx
          rcases hx with hx | hx
          · exact hinv x hx
          · subst hx
            rcases Decidable.not_and_iff_or_not.mp hguard with hm | ha
            · exact Or.inl hm
            · exact Or.inr ha
  · intro db assoc user
    unfold create_provided_maintenance_country_association
    cases hown : get_provided_maintenance_with_owner db assoc.provided_maintenance_id user with
    | error e => rfl
    | ok pm =>
        cases hc : get_country_by_country_id db assoc.country_id with
        | error e => rfl
        | ok c =>
            dsimp only
            unfold ProvidedMaintenanceCountryAssociationService.create_provided_maintenance_country_association
            split <;> rfl
  · intro db assoc user
    unfold create_provided_maintenance_vehicle_brand_association
    cases hown : get_provided_maintenance_with_owner db assoc.provided_maintenance_id user with
    | error e => rfl
    | ok pm =>
        cases hb : get_vehicle_brand_by_vehicle_brand_id db assoc.vehicle_brand_id with
        | error e => rfl
        | ok b =>
            dsimp only
            unfold ProvidedMaintenanceVehicleBrandAssociationService.create_provided_maintenance_vehicle_brand_association
            split <;> rfl

/-! ### Claim C2 -/

/-- C2: `create_provided_maintenance` raises NotFound for a missing
mechanic and the belongs-to-another-user error for a mechanic with a
different uid; for a set `autoservice_id` it raises NotFound for a
missing autoservice and a permission error unless the user holds
`autoservice:manage_provided_maintenance` on it; every error case
leaves the store unchanged, and the association flows propagate the
same owner validation before attaching any association row. -/
theorem create_provided_maintenance_validates_executor :
    (∀ (db : DB) (pm : ProvidedMaintenance) (user : User) (e : Err),
        (create_provided_maintenance db pm user).1 = .error e →
        (create_provided_maintenance db pm user).2 = db) ∧
    (∀ (db : DB) (pm : ProvidedMaintenance) (user : User) (ty : ProvidedMaintenanceType)
        (mid : Nat),
        get_provided_maintenance_type_by_provided_maintenance_id db
          pm.provided_maintenance_type_id = .ok ty →
        pm.mechanic_id = some mid →
        (get_mechanic_by_mechanic_id db mid = .error .mechanicNotFound →
          create_provided_maintenance db pm user = (.error .mechanicNotFound, db)) ∧
        (∀ m, get_mechanic_by_mechanic_id db mid = .ok m → m.uid ≠ user.uid →
          create_provided_maintenance db pm user = (.error .mechanicBelongsToAnotherUser, db))) ∧
    (∀ (db : DB) (pm : ProvidedMaintenance) (user : User) (ty : ProvidedMaintenanceType)
        (aid : Nat),
        get_provided_maintenance_type_by_provided_maintenance_id db
          pm.provided_maintenance_type_id = .ok ty →
        mechanicOwnerCheck db pm user = .ok () →
        pm.autoservice_id = some aid →
        (get_autoservice_by_autoservice_id db aid = .error .autoserviceNotFound →
          create_provided_maintenance db pm user = (.error .autoserviceNotFound, db)) ∧
        (∀ a, get_autoservice_by_autoservice_id db aid = .ok a →
          ¬ (∃ au, get_autoservice_user_by_uid_and_autoservice_id db user.uid
                a.autoservice_id = .ok au ∧
              Perm.autoservice_manage_provided_maintenance ∈ au.permissions) →
          ∃ e, create_provided_maintenance db pm user = (.error e, db) ∧
            e.isPermissionError = true)) ∧
    (∀ (db : DB) (assoc : ProvidedMaintenanceCountryAssociation) (user : User) (e : Err),
        get_provided_maintenance_with_owner db assoc.provided_maintenance_id user = .error e →
        create_provided_maintenance_country_association db assoc user = (.error e, db)) ∧
    (∀ (db : DB) (assoc : ProvidedMaintenanceVehicleBrandAssociation) (user : User) (e : Err),
        get_provided_maintenance_with_owner db assoc.provided_maintenance_id user = .error e →
        create_provided_maintenance_vehicle_brand_association db assoc user = (.error e, db)) := by
  refine ⟨?_, ?_, ?_, ?_, ?_⟩
  · intro db pm user e h
    cases hty : get_provided_maintenance_type_by_provided_maintenance_id db
        pm.provided_maintenance_type_id with
    | error e' => simp [create_provided_maintenance, hty]
    | ok ty =>
    cases hmc : mechanicOwnerCheck db pm user with
    | error e' => simp [create_provided_maintenance, hty, hmc]
    | ok u1 =>
    cases hac : autoservicePermissionCheck db pm user with
    | error e' => simp [create_provided_maintenance, hty, hmc, hac]
    | ok u2 =>
        simp only [create_provided_maintenance, hty, hmc, hac, insertProvidedMaintenance] at h ⊢
        split at h
        · rename_i hguard
          rw [if_pos hguard]
        · simp at h
  · intro db pm user ty mid hty hmid
    constructor
    · intro hmech
      have hmc : mechanicOwnerCheck db pm user = .error .mechanicNotFound := by
        simp [mechanicOwnerCheck, hmid, hmech]
      simp [create_provided_maintenance, hty, hmc]
    · intro m hm hne
      have hmc : mechanicOwnerCheck db pm user = .error .mechanicBelongsToAnotherUser := by
        simp [mechanicOwnerCheck, hmid, hm, validate_mechanic_owner, hne]
      simp [create_provided_maintenance, hty, hmc]
  · intro db pm user ty aid hty hmc haid
    constructor
    · intro hget
      have hac : autoservicePermissionCheck db pm user = .error .autoserviceNotFound := by
        simp [autoservicePermissionCheck, haid, hget]
      simp [create_provided_maintenance, hty, hmc, hac]
    · intro a hget hnot
      cases hau : get_autoservice_user_by_uid_and_autoservice_id db user.uid
          a.autoservice_id with
      | error e =>
          have he : e = .autoserviceUserNotFound := by
            unfold get_autoservice_user_by_uid_and_autoservice_id at hau
            cases hfind : db.autoservice_users.find?
                (fun au => au.uid == user.uid && au.autoservice_id == a.autoservice_id) with
            | some au => rw [hfind] at hau; cases hau
            | none => rw [hfind] at hau; cases hau; rfl
          subst he
          have hac : autoservicePermissionCheck db pm user = .error .autoserviceUserNotFound := by
            simp [autoservicePermissionCheck, haid, hget,
              validate_autoservice_manage_provided_maintenance_permissions, hau]
          refine ⟨.autoserviceUserNotFound, ?_, by decide⟩
          simp [create_provided_maintenance, hty, hmc, hac]
      | ok au =>
          have hperm : Perm.autoservice_manage_provided_maintenance ∉ au.permissions := by
            intro hmem
            exact hnot ⟨au, hau, hmem⟩
          have hac : autoservicePermissionCheck db pm user =
              .error .autoserviceUserDoesntHavePermissions := by
            simp [autoservicePermissionCheck, haid, hget,
              validate_autoservice_manage_provided_maintenance_permissions, hau, hperm]
          refine ⟨.autoserviceUserDoesntHavePermissions, ?_, by decide⟩
          simp [create_provided_maintenance, hty, hmc, hac]
  · intro db assoc user e hown
    simp [create_provided_maintenance_country_association, hown]
  · intro db assoc user e hown
    simp [create_provided_maintenance_vehicle_brand_association, hown]

/-- Concrete store for the maintenance-validation witness: one
maintenance type and one autoservice with no user rows. -/
def pmValWitnessDB : DB :=
  { provided_maintenance_types := [{ provided_maintenance_type_id := 1, name := "t",
                                     provided_maintenance_category_id := 1 }]
    autoservices := [{ autoservice_id := 3, name := "nn", description := none,
                       itn := "1234567890", psrn := "1234567890123", city := "",
                       address := "a" }] }

/-- Witness maintenance row referencing a missing mechanic. -/
def pmValWitnessMech : ProvidedMaintenance :=
  { provided_maintenance_id := 50, price := 100, description := none,
    provided_maintenance_type_id := 1, mechanic_id := some 99, autoservice_id := none }

/-- Witness maintenance row referencing autoservice 3. -/
def pmValWitnessAuto : ProvidedMaintenance :=
  { provided_maintenance_id := 51, price := 100, description := none,
    provided_maintenance_type_id := 1, mechanic_id := none, autoservice_id := some 3 }

/-- Witness for the maintenance-validation theorem on a concrete
store. -/
theorem create_provided_maintenance_validates_witness :
    create_provided_maintenance pmValWitnessDB pmValWitnessMech ⟨7⟩ =
      (.error .mechanicNotFound, pmValWitnessDB) ∧
    (∃ e, create_provided_maintenance pmValWitnessDB pmValWitnessAuto ⟨7⟩ =
      (.error e, pmValWitnessDB) ∧ e.isPermissionError = true) ∧
    create_provided_maintenance_country_association pmValWitnessDB
        { provided_maintenance_id := 77, country_id := 1 } ⟨7⟩ =
      (.error .providedMaintenanceNotFound, pmValWitnessDB) ∧
    create_provided_maintenance_vehicle_brand_association pmValWitnessDB
        { provided_maintenance_id := 77, vehicle_brand_id := 1 } ⟨7⟩ =
      (.error .providedMaintenanceNotFound, pmValWitnessDB) := by
  refine ⟨?_, ?_, ?_, ?_⟩
  · exact (create_provided_maintenance_validates_executor.2.1 pmValWitnessDB pmValWitnessMech
      ⟨7⟩ _ 99 rfl rfl).1 rfl
  · refine (create_provided_maintenance_validates_executor.2.2.1 pmValWitnessDB pmValWitnessAuto
      ⟨7⟩ _ 3 rfl rfl rfl).2 _ rfl ?_
    rintro ⟨au, hau, _⟩
    have h2 : (Except.error Err.autoserviceUserNotFound : Except Err AutoserviceUser) =
        Except.ok au := hau
    cases h2
  · exact create_provided_maintenance_validates_executor.2.2.2.1 pmValWitnessDB _ ⟨7⟩
      .providedMaintenanceNotFound rfl
  · exact create_provided_maintenance_validates_executor.2.2.2.2 pmValWitnessDB _ ⟨7⟩
      .providedMaintenanceNotFound rfl

/-- Concrete store for the vehicle-chain witness: two brands, one model
under brand 1, one generation under model 4, one customer. -/
def vehicleWitnessDB : DB :=
  { customers := [{ customer_id := 5, name := "ab", city := none, uid := 1 }]
    vehicle_brands := [{ vehicle_brand_id := 1, name := "b", popular := false, country_id := 1 },
                       { vehicle_brand_id := 2, name := "b2", popular := false, country_id := 1 }]
    vehicle_models := [{ vehicle_model_id := 4, name := "m", vehicle_brand_id := 1 }]
    vehicle_generations := [{ vehicle_generation_id := 8, name := "g",
                              start_year_production := 2000, end_year_production := none,
                              vehicle_model_id := 4 }] }

/-- Witness vehicle with a consistent brand 1 → model 4 → generation 8
chain. -/
def vehicleWitnessOk : Vehicle :=
  { vehicle_id := 100, state_number := none, vin := none, vehicle_brand_id := 1,
    vehicle_model_id := 4, vehicle_generation_id := 8, customer_id := 5 }

/-- Witness vehicle whose model 4 does not belong to brand 2. -/
def vehicleWitnessBad : Vehicle :=
  { vehicle_id := 101, state_number := none, vin := none, vehicle_brand_id := 2,
    vehicle_model_id := 4, vehicle_generation_id := 8, customer_id := 5 }

/-- Witness for the vehicle-chain theorem on a concrete store. -/
theorem create_vehicle_chain_witness :
    create_vehicle vehicleWitnessDB vehicleWitnessBad =
      (.error .vehicleModelDoesntMatchWithVehicleBrand, vehicleWitnessDB) ∧
    (∃ vb vm vg,
      get_vehicle_brand_by_vehicle_brand_id vehicleWitnessDB vehicleWitnessOk.vehicle_brand_id =
        .ok vb ∧
      get_vehicle_model_by_vehicle_model_id vehicleWitnessDB vehicleWitnessOk.vehicle_model_id =
        .ok vm ∧
      get_vehicle_generation_by_vehicle_generation_id vehicleWitnessDB
        vehicleWitnessOk.vehicle_generation_id = .ok vg ∧
      vm.vehicle_brand_id = vb.vehicle_brand_id ∧
      vg.vehicle_model_id = vm.vehicle_model_id) := by
  constructor
  · exact create_vehicle_chain_consistency.2.2.2.2.1 vehicleWitnessDB vehicleWitnessBad _ _
      rfl rfl (by decide)
  · exact create_vehicle_chain_consistency.2.1 vehicleWitnessDB vehicleWitnessOk
      vehicleWitnessOk rfl

/-- Concrete store for the executor-invariant witness: one maintenance
type and one mechanic owned by uid 7. -/
def pmExecWitnessDB : DB :=
  { provided_maintenance_types := [{ provided_maintenance_type_id := 1, name := "t",
                                     provided_maintenance_category_id := 1 }]
    mechanics := [{ mechanic_id := 2, name := "ab", description := none, city := "c",
                    address := none, private_ := true, mobile := false, uid := 7 }] }

/-- Witness maintenance row provided by mechanic 2. -/
def pmExecWitnessPM : ProvidedMaintenance :=
  { provided_maintenance_id := 60, price := 100, description := none,
    provided_maintenance_type_id := 1, mechanic_id := some 2, autoservice_id := none }

/-- Witness for the executor-invariant theorem on a concrete store. -/
theorem provided_maintenance_executor_witness :
    (pmExecWitnessPM.mechanic_id ≠ none ∨ pmExecWitnessPM.autoservice_id ≠ none) ∧
    pmExecutorInv (create_provided_maintenance pmExecWitnessDB pmExecWitnessPM ⟨7⟩).2 := by
  constructor
  · exact provided_maintenance_executor_invariant.1 pmExecWitnessDB pmExecWitnessPM ⟨7⟩
      pmExecWitnessPM rfl
  · exact provided_maintenance_executor_invariant.2.1 pmExecWitnessDB pmExecWitnessPM ⟨7⟩
      (by intro x hx; simp [pmExecWitnessDB] at hx)

end Products
